import Mathlib

set_option linter.unusedVariables false

/-!
Verification of the `spotify/track.py` metadata-object core of pyspotify.

The Python module wraps an opaque native libspotify track resource behind a
reference-counted, lazily-loaded handle.  We embed it shallowly: the native
layer is a world mapping track pointers to native field values, every native
call an accessor performs is logged in a trace, and Python exceptions become
an `Except` error channel.  Accessors return the pair of their Python result
and the list of native calls made, in order.
-/

/-- Native pointer to an sp_track resource (opaque token). -/
abbrev SpTrackPtr := Nat

/-- Native pointer to an sp_session resource (opaque token). -/
abbrev SpSessionPtr := Nat

/-- Native pointer to an sp_album resource (opaque token). -/
abbrev SpAlbumPtr := Nat

/-- Native representation of a C char buffer argument: either the null
pointer (`ffi.NULL`) or a byte buffer allocated by `ffi.new`. -/
inductive CCharBuf where
  | null : CCharBuf
  | buf (bytes : List UInt8) : CCharBuf
  deriving DecidableEq

/-- One call into the native `lib` layer, as performed by the Python code. -/
inductive NativeCall where
  | sp_track_add_ref (t : SpTrackPtr)
  | sp_track_release (t : SpTrackPtr)
  | sp_track_is_loaded (t : SpTrackPtr)
  | sp_track_error (t : SpTrackPtr)
  | sp_track_offline_get_status (t : SpTrackPtr)
  | sp_track_get_availability (s : SpSessionPtr) (t : SpTrackPtr)
  | sp_track_is_local (s : SpSessionPtr) (t : SpTrackPtr)
  | sp_track_is_autolinked (s : SpSessionPtr) (t : SpTrackPtr)
  | sp_track_get_playable (s : SpSessionPtr) (t : SpTrackPtr)
  | sp_track_is_placeholder (t : SpTrackPtr)
  | sp_track_is_starred (s : SpSessionPtr) (t : SpTrackPtr)
  | sp_track_album (t : SpTrackPtr)
  | sp_track_name (t : SpTrackPtr)
  | sp_track_duration (t : SpTrackPtr)
  | sp_track_popularity (t : SpTrackPtr)
  | sp_track_disc (t : SpTrackPtr)
  | sp_track_index (t : SpTrackPtr)
  | sp_localtrack_create (artist title album : CCharBuf) (length : Int)
  deriving DecidableEq

/-- Whether a native call is a typed field read (as opposed to the
reference-count operations, the Loadable capability queries `is_loaded` and
`error`, and resource creation). -/
def isFieldRead : NativeCall → Bool
  | .sp_track_add_ref _ => false
  | .sp_track_release _ => false
  | .sp_track_is_loaded _ => false
  | .sp_track_error _ => false
  | .sp_localtrack_create _ _ _ _ => false
  | _ => true

/-- The typed field reads contained in a native-call trace. -/
def fieldReads (l : List NativeCall) : List NativeCall :=
  l.filter isFieldRead

/-- Net change a native-call trace makes to the reference count of the
resource at pointer `t`: each add_ref is +1, each release is -1. -/
def refDelta (t : SpTrackPtr) : List NativeCall → Int
  | [] => 0
  | .sp_track_add_ref u :: rest => (if u = t then 1 else 0) + refDelta t rest
  | .sp_track_release u :: rest => (if u = t then -1 else 0) + refDelta t rest
  | _ :: rest => refDelta t rest

/-- Number of release calls a trace performs on the resource at pointer `t`. -/
def releaseCount (t : SpTrackPtr) (l : List NativeCall) : Nat :=
  l.countP (fun c => c = NativeCall.sp_track_release t)

/-- Number of add_ref calls a trace performs on the resource at pointer `t`. -/
def addRefCount (t : SpTrackPtr) (l : List NativeCall) : Nat :=
  l.countP (fun c => c = NativeCall.sp_track_add_ref t)

/-- The native field values of one sp_track resource.  Boolean-valued native
reads are C ints (Python coerces them with bool), string reads are modelled
already decoded, the album read is a nullable pointer. -/
structure NativeTrack where
  is_loaded : Int
  error : Nat
  offline_status : Nat
  availability : Nat
  is_local : Int
  is_autolinked : Int
  playable : SpTrackPtr
  is_placeholder : Int
  is_starred : Int
  album : Option SpAlbumPtr
  name : String
  duration : Int
  popularity : Int
  disc : Int
  index : Int

/-- The native layer: the field values of every track resource. -/
structure NativeWorld where
  tracks : SpTrackPtr → NativeTrack

/-- Python bool() coercion of a C int: nonzero is true. -/
def pybool (i : Int) : Bool := i != 0

/-- The active session singleton (spotify.session_instance): the wrapper
holds the native session pointer. -/
structure Session where
  sp_session : SpSessionPtr
  deriving DecidableEq

/-- A Python exception raised by the track accessors: either the liveness
RuntimeError or a spotify.Error carrying a native error code. -/
inductive PyErr where
  | runtimeError (msg : String)
  | spError (code : Nat)
  deriving DecidableEq

/-- The OK value of the native error enumeration (SP_ERROR_OK). -/
def SP_ERROR_OK : Nat := 0

/-- Modelled from the spec: `Error.maybe_raise` lives in `spotify.error`,
which is not part of the excerpt.  Per the spec it raises a typed error
carrying the native code when the code is non-benign (non-OK) and otherwise
does nothing: "require the object to be free of error (raise if `error` is
non-benign) before returning a value". -/
def Error.maybe_raise (error_type : Nat) : Except PyErr Unit :=
  if error_type = SP_ERROR_OK then .ok () else .error (.spError error_type)

/-- Modelled from the spec: `to_unicode` lives in `spotify.utils`, which is
not part of the excerpt; it decodes a native char pointer to text.  Native
strings are modelled already decoded, so the decode is the identity. -/
def to_unicode (s : String) : String := s

/-- Modelled from the spec: `to_bytes` lives in `spotify.utils`, which is
not part of the excerpt; per the spec each provided string "is encoded to
the native text form", modelled as UTF-8 bytes. -/
def to_bytes (value : String) : List UInt8 := value.toUTF8.toList

deriving instance DecidableEq for Except

/-- A Python Track wrapper object: its object identity and the stored
native pointer. -/
structure Track where
  oid : Nat
  sp_track : SpTrackPtr
  deriving DecidableEq

/-- An Album wrapper object as constructed by Track.album. -/
structure Album where
  sp_album : SpAlbumPtr
  deriving DecidableEq

/-- TrackOfflineStatus enum value (wraps the native constant). -/
structure TrackOfflineStatus where
  val : Nat
  deriving DecidableEq

/-- TrackAvailability enum value (wraps the native constant). -/
structure TrackAvailability where
  val : Nat
  deriving DecidableEq

/-- Track.__init__ (track.py lines 19-22): if add_ref is true, call
sp_track_add_ref on the pointer; store the pointer.  `oid` is the identity
of the freshly allocated wrapper object.  Returns the wrapper and the
native calls performed. -/
def Track.init (sp_track : SpTrackPtr) (add_ref : Bool) (oid : Nat) :
    Track × List NativeCall :=
  (⟨oid, sp_track⟩,
   if add_ref then [NativeCall.sp_track_add_ref sp_track] else [])

/-- Modelled from the spec: `ffi.gc` (cffi, external to the excerpt)
attaches sp_track_release as a finalizer that runs exactly once at the
wrapper end of life: "owns exactly one reference; releases it exactly once
at end of life".  The full native-call trace of one wrapper lifetime is its
construction trace followed by that single release. -/
def Track.lifecycle (sp_track : SpTrackPtr) (add_ref : Bool) (oid : Nat) :
    List NativeCall :=
  (Track.init sp_track add_ref oid).2 ++ [NativeCall.sp_track_release sp_track]

/-- Track.is_loaded property (lines 24-27): bool of the native read. -/
def Track.is_loaded (w : NativeWorld) (self : Track) : Bool × List NativeCall :=
  (pybool (w.tracks self.sp_track).is_loaded,
   [NativeCall.sp_track_is_loaded self.sp_track])

/-- Track.error property (lines 29-35): the native error code. -/
def Track.error (w : NativeWorld) (self : Track) : Nat × List NativeCall :=
  ((w.tracks self.sp_track).error, [NativeCall.sp_track_error self.sp_track])

/-- Track.offline_status property (lines 37-47): maybe_raise on the error,
then the native offline-status read.  Note the body performs no session
check, so the session singleton is never consulted. -/
def Track.offline_status (w : NativeWorld) (session_instance : Option Session)
    (self : Track) : Except PyErr TrackOfflineStatus × List NativeCall :=
  match Error.maybe_raise (Track.error w self).1 with
  | .error e => (.error e, (Track.error w self).2)
  | .ok _ =>
    (.ok ⟨(w.tracks self.sp_track).offline_status⟩,
     (Track.error w self).2 ++
       [NativeCall.sp_track_offline_get_status self.sp_track])

/-- Track.availability property (lines 49-57): session check, maybe_raise,
then the native availability read scoped to the session. -/
def Track.availability (w : NativeWorld) (session_instance : Option Session)
    (self : Track) : Except PyErr TrackAvailability × List NativeCall :=
  match session_instance with
  | none => (.error (.runtimeError "Session must be initialized"), [])
  | some sess =>
    match Error.maybe_raise (Track.error w self).1 with
    | .error e => (.error e, (Track.error w self).2)
    | .ok _ =>
      (.ok ⟨(w.tracks self.sp_track).availability⟩,
       (Track.error w self).2 ++
         [NativeCall.sp_track_get_availability sess.sp_session self.sp_track])

/-- Track.is_local property (lines 59-71): session check, maybe_raise,
None when unloaded, else bool of the native read. -/
def Track.is_local (w : NativeWorld) (session_instance : Option Session)
    (self : Track) : Except PyErr (Option Bool) × List NativeCall :=
  match session_instance with
  | none => (.error (.runtimeError "Session must be initialized"), [])
  | some sess =>
    match Error.maybe_raise (Track.error w self).1 with
    | .error e => (.error e, (Track.error w self).2)
    | .ok _ =>
      if (Track.is_loaded w self).1 = false then
        (.ok none, (Track.error w self).2 ++ (Track.is_loaded w self).2)
      else
        (.ok (some (pybool (w.tracks self.sp_track).is_local)),
         (Track.error w self).2 ++ (Track.is_loaded w self).2 ++
           [NativeCall.sp_track_is_local sess.sp_session self.sp_track])

/-- Track.is_autolinked property (lines 73-87): session check, maybe_raise,
None when unloaded, else bool of the native read. -/
def Track.is_autolinked (w : NativeWorld) (session_instance : Option Session)
    (self : Track) : Except PyErr (Option Bool) × List NativeCall :=
  match session_instance with
  | none => (.error (.runtimeError "Session must be initialized"), [])
  | some sess =>
    match Error.maybe_raise (Track.error w self).1 with
    | .error e => (.error e, (Track.error w self).2)
    | .ok _ =>
      if (Track.is_loaded w self).1 = false then
        (.ok none, (Track.error w self).2 ++ (Track.is_loaded w self).2)
      else
        (.ok (some (pybool (w.tracks self.sp_track).is_autolinked)),
         (Track.error w self).2 ++ (Track.is_loaded w self).2 ++
           [NativeCall.sp_track_is_autolinked sess.sp_session self.sp_track])

/-- Track.playable property (lines 89-100): session check, maybe_raise,
then a new Track wrapper (default add_ref, which is true) around the native
playable target.  `next_oid` is the identity the allocator gives the fresh
wrapper. -/
def Track.playable (w : NativeWorld) (session_instance : Option Session)
    (self : Track) (next_oid : Nat) : Except PyErr Track × List NativeCall :=
  match session_instance with
  | none => (.error (.runtimeError "Session must be initialized"), [])
  | some sess =>
    match Error.maybe_raise (Track.error w self).1 with
    | .error e => (.error e, (Track.error w self).2)
    | .ok _ =>
      (.ok (Track.init (w.tracks self.sp_track).playable true next_oid).1,
       (Track.error w self).2 ++
         [NativeCall.sp_track_get_playable sess.sp_session self.sp_track] ++
         (Track.init (w.tracks self.sp_track).playable true next_oid).2)

/-- Track.is_placeholder property (lines 102-117): maybe_raise, then bool
of the native read.  No session check and no loadedness check. -/
def Track.is_placeholder (w : NativeWorld) (session_instance : Option Session)
    (self : Track) : Except PyErr Bool × List NativeCall :=
  match Error.maybe_raise (Track.error w self).1 with
  | .error e => (.error e, (Track.error w self).2)
  | .ok _ =>
    (.ok (pybool (w.tracks self.sp_track).is_placeholder),
     (Track.error w self).2 ++
       [NativeCall.sp_track_is_placeholder self.sp_track])

/-- Track.is_starred property (lines 119-131): session check, maybe_raise,
None when unloaded, else bool of the native read. -/
def Track.is_starred (w : NativeWorld) (session_instance : Option Session)
    (self : Track) : Except PyErr (Option Bool) × List NativeCall :=
  match session_instance with
  | none => (.error (.runtimeError "Session must be initialized"), [])
  | some sess =>
    match Error.maybe_raise (Track.error w self).1 with
    | .error e => (.error e, (Track.error w self).2)
    | .ok _ =>
      if (Track.is_loaded w self).1 = false then
        (.ok none, (Track.error w self).2 ++ (Track.is_loaded w self).2)
      else
        (.ok (some (pybool (w.tracks self.sp_track).is_starred)),
         (Track.error w self).2 ++ (Track.is_loaded w self).2 ++
           [NativeCall.sp_track_is_starred sess.sp_session self.sp_track])

/-- Track.album property (lines 137-145): maybe_raise, native album read,
Album wrapper if the pointer is non-null else None. -/
def Track.album (w : NativeWorld) (session_instance : Option Session)
    (self : Track) : Except PyErr (Option Album) × List NativeCall :=
  match Error.maybe_raise (Track.error w self).1 with
  | .error e => (.error e, (Track.error w self).2)
  | .ok _ =>
    (.ok (match (w.tracks self.sp_track).album with
          | some p => some ⟨p⟩
          | none => none),
     (Track.error w self).2 ++ [NativeCall.sp_track_album self.sp_track])

/-- Track.name property (lines 147-155): maybe_raise, decode the native
name, return it if non-empty (Python truthiness) else None. -/
def Track.name (w : NativeWorld) (session_instance : Option Session)
    (self : Track) : Except PyErr (Option String) × List NativeCall :=
  match Error.maybe_raise (Track.error w self).1 with
  | .error e => (.error e, (Track.error w self).2)
  | .ok _ =>
    (.ok (if to_unicode (w.tracks self.sp_track).name = "" then none
          else some (to_unicode (w.tracks self.sp_track).name)),
     (Track.error w self).2 ++ [NativeCall.sp_track_name self.sp_track])

/-- Track.duration property (lines 157-165): maybe_raise, native read,
value if nonzero (Python truthiness) else None. -/
def Track.duration (w : NativeWorld) (session_instance : Option Session)
    (self : Track) : Except PyErr (Option Int) × List NativeCall :=
  match Error.maybe_raise (Track.error w self).1 with
  | .error e => (.error e, (Track.error w self).2)
  | .ok _ =>
    (.ok (if pybool (w.tracks self.sp_track).duration
          then some (w.tracks self.sp_track).duration else none),
     (Track.error w self).2 ++ [NativeCall.sp_track_duration self.sp_track])

/-- Track.popularity property (lines 167-176): maybe_raise, None when
unloaded, else the native value unchanged (no zero-to-None conversion). -/
def Track.popularity (w : NativeWorld) (session_instance : Option Session)
    (self : Track) : Except PyErr (Option Int) × List NativeCall :=
  match Error.maybe_raise (Track.error w self).1 with
  | .error e => (.error e, (Track.error w self).2)
  | .ok _ =>
    if (Track.is_loaded w self).1 = false then
      (.ok none, (Track.error w self).2 ++ (Track.is_loaded w self).2)
    else
      (.ok (some (w.tracks self.sp_track).popularity),
       (Track.error w self).2 ++ (Track.is_loaded w self).2 ++
         [NativeCall.sp_track_popularity self.sp_track])

/-- Track.disc property (lines 178-187): maybe_raise, native read, value
if nonzero (Python truthiness) else None. -/
def Track.disc (w : NativeWorld) (session_instance : Option Session)
    (self : Track) : Except PyErr (Option Int) × List NativeCall :=
  match Error.maybe_raise (Track.error w self).1 with
  | .error e => (.error e, (Track.error w self).2)
  | .ok _ =>
    (.ok (if pybool (w.tracks self.sp_track).disc
          then some (w.tracks self.sp_track).disc else none),
     (Track.error w self).2 ++ [NativeCall.sp_track_disc self.sp_track])

/-- Track.index property (lines 189-198): maybe_raise, native read, value
if nonzero (Python truthiness) else None. -/
def Track.index (w : NativeWorld) (session_instance : Option Session)
    (self : Track) : Except PyErr (Option Int) × List NativeCall :=
  match Error.maybe_raise (Track.error w self).1 with
  | .error e => (.error e, (Track.error w self).2)
  | .ok _ =>
    (.ok (if pybool (w.tracks self.sp_track).index
          then some (w.tracks self.sp_track).index else none),
     (Track.error w self).2 ++ [NativeCall.sp_track_index self.sp_track])

/-- The convert lambda of LocalTrack.__init__ (lines 221-222): None becomes
ffi.NULL, a value is encoded to bytes in a fresh char buffer. -/
def LocalTrack.convert (value : Option String) : CCharBuf :=
  match value with
  | none => CCharBuf.null
  | some v => CCharBuf.buf (to_bytes v)

/-- LocalTrack.__init__ (lines 220-232): convert the three string
parameters, map a None length to -1, call sp_localtrack_create, and wrap
the returned handle with add_ref false.  `create` is the native creation
call, returning the new owned handle for the given arguments. -/
def LocalTrack.init (artist title album : Option String) (length : Option Int)
    (create : CCharBuf → CCharBuf → CCharBuf → Int → SpTrackPtr) (oid : Nat) :
    Track × List NativeCall :=
  let artist := LocalTrack.convert artist
  let title := LocalTrack.convert title
  let album := LocalTrack.convert album
  let length : Int := match length with
    | none => -1
    | some l => l
  let sp_track := create artist title album length
  ((Track.init sp_track false oid).1,
   NativeCall.sp_localtrack_create artist title album length ::
     (Track.init sp_track false oid).2)

/-- A loaded, error-free native track used by concrete witnesses. -/
def ntLoaded : NativeTrack where
  is_loaded := 1
  error := 0
  offline_status := 2
  availability := 1
  is_local := 0
  is_autolinked := 1
  playable := 9
  is_placeholder := 1
  is_starred := 1
  album := some 4
  name := "x"
  duration := 210000
  popularity := 0
  disc := 1
  index := 3

/-- An unloaded, error-free native track used by concrete witnesses. -/
def ntUnloaded : NativeTrack where
  is_loaded := 0
  error := 0
  offline_status := 0
  availability := 0
  is_local := 1
  is_autolinked := 0
  playable := 5
  is_placeholder := 0
  is_starred := 1
  album := none
  name := ""
  duration := 0
  popularity := 0
  disc := 0
  index := 0

/-- A native track with a non-OK error code used by concrete witnesses. -/
def ntFailed : NativeTrack where
  is_loaded := 1
  error := 3
  offline_status := 1
  availability := 1
  is_local := 1
  is_autolinked := 0
  playable := 7
  is_placeholder := 0
  is_starred := 0
  album := some 8
  name := "y"
  duration := 100
  popularity := 50
  disc := 2
  index := 1

/-- World where every track is the loaded witness track. -/
def wLoaded : NativeWorld := ⟨fun _ => ntLoaded⟩

/-- World where every track is the unloaded witness track. -/
def wUnloaded : NativeWorld := ⟨fun _ => ntUnloaded⟩

/-- World where every track carries the failing witness track. -/
def wFailed : NativeWorld := ⟨fun _ => ntFailed⟩

/-- A concrete wrapper used by witnesses. -/
def tr0 : Track := ⟨0, 0⟩

/-- Claim C1: a wrapper built with add_ref true increases the refcount of
its resource by exactly one at construction; with add_ref false it does not
touch the refcount at construction; in both modes no release happens during
construction, the whole lifetime performs exactly one release, and the end
of life decreases the refcount by exactly one relative to construction. -/
theorem track_refcount_lifecycle (t oid : Nat) (b : Bool) :
    refDelta t (Track.init t true oid).2 = 1 ∧
    refDelta t (Track.init t false oid).2 = 0 ∧
    releaseCount t (Track.init t b oid).2 = 0 ∧
    releaseCount t (Track.lifecycle t b oid) = 1 ∧
    refDelta t (Track.lifecycle t b oid) =
      refDelta t (Track.init t b oid).2 - 1 := by
  cases b <;>
    simp [Track.init, Track.lifecycle, refDelta, releaseCount,
      List.countP_cons, List.countP_nil]

/-- Claim C2: with no active session, each of the session-gated accessors
availability, is_local, is_autolinked, playable, is_starred raises the
RuntimeError liveness fault, for every load and error state of the track,
and performs no native call at all (so the fault precedes the error
check). -/
theorem session_gated_liveness_fault (w : NativeWorld) (self : Track)
    (next_oid : Nat) :
    Track.availability w none self =
      (.error (.runtimeError "Session must be initialized"), []) ∧
    Track.is_local w none self =
      (.error (.runtimeError "Session must be initialized"), []) ∧
    Track.is_autolinked w none self =
      (.error (.runtimeError "Session must be initialized"), []) ∧
    Track.playable w none self next_oid =
      (.error (.runtimeError "Session must be initialized"), []) ∧
    Track.is_starred w none self =
      (.error (.runtimeError "Session must be initialized"), []) := by
  simp [Track.availability, Track.is_local, Track.is_autolinked,
    Track.playable, Track.is_starred]

/-- Claim C3 counterexample: offline_status performs no session check.  On
a concrete error-free track with session_instance set to none it does not
raise the liveness fault; it succeeds and performs the native
offline-status read. -/
theorem offline_status_no_session_check :
    (Track.offline_status wLoaded none tr0).1 ≠
        .error (.runtimeError "Session must be initialized") ∧
    (Track.offline_status wLoaded none tr0).1 = .ok ⟨2⟩ ∧
    fieldReads (Track.offline_status wLoaded none tr0).2 =
      [NativeCall.sp_track_offline_get_status 0] := by
  constructor
  · decide
  · constructor <;> decide

/-- Claim C3 amended: offline_status is gated only on the error check, not
on session liveness.  For any session state, including no session at all,
when the error code of the track is OK it proceeds to the native
offline-status read and returns its value without any liveness fault. -/
theorem offline_status_not_session_gated (w : NativeWorld)
    (session_instance : Option Session) (self : Track)
    (herr : (w.tracks self.sp_track).error = SP_ERROR_OK) :
    Track.offline_status w session_instance self =
      (.ok ⟨(w.tracks self.sp_track).offline_status⟩,
       [NativeCall.sp_track_error self.sp_track,
        NativeCall.sp_track_offline_get_status self.sp_track]) := by
  simp [Track.offline_status, Track.error, Error.maybe_raise, herr]

/-- Claim C3 amended, witness at a concrete input. -/
theorem offline_status_not_session_gated_witness :
    (wUnloaded.tracks tr0.sp_track).error = SP_ERROR_OK ∧
    Track.offline_status wUnloaded none tr0 =
      (.ok ⟨(wUnloaded.tracks tr0.sp_track).offline_status⟩,
       [NativeCall.sp_track_error tr0.sp_track,
        NativeCall.sp_track_offline_get_status tr0.sp_track]) :=
  ⟨by decide, offline_status_not_session_gated wUnloaded none tr0 (by decide)⟩

/-- Claim C4: when the native error code of a track is non-OK, every
error-free-gated accessor (offline_status, availability, is_local,
is_autolinked, playable, is_placeholder, is_starred, album, name, duration,
popularity, disc, index) raises a spotify.Error carrying exactly that code
and performs no native field read, while is_loaded and error still succeed
and report the native state. -/
theorem error_gated_accessors_raise (w : NativeWorld) (sess : Session)
    (si : Option Session) (self : Track) (next_oid : Nat)
    (herr : (w.tracks self.sp_track).error ≠ SP_ERROR_OK) :
    (Track.offline_status w si self).1 =
        .error (.spError (w.tracks self.sp_track).error) ∧
    fieldReads (Track.offline_status w si self).2 = [] ∧
    (Track.availability w (some sess) self).1 =
        .error (.spError (w.tracks self.sp_track).error) ∧
    fieldReads (Track.availability w (some sess) self).2 = [] ∧
    (Track.is_local w (some sess) self).1 =
        .error (.spError (w.tracks self.sp_track).error) ∧
    fieldReads (Track.is_local w (some sess) self).2 = [] ∧
    (Track.is_autolinked w (some sess) self).1 =
        .error (.spError (w.tracks self.sp_track).error) ∧
    fieldReads (Track.is_autolinked w (some sess) self).2 = [] ∧
    (Track.playable w (some sess) self next_oid).1 =
        .error (.spError (w.tracks self.sp_track).error) ∧
    fieldReads (Track.playable w (some sess) self next_oid).2 = [] ∧
    (Track.is_placeholder w si self).1 =
        .error (.spError (w.tracks self.sp_track).error) ∧
    fieldReads (Track.is_placeholder w si self).2 = [] ∧
    (Track.is_starred w (some sess) self).1 =
        .error (.spError (w.tracks self.sp_track).error) ∧
    fieldReads (Track.is_starred w (some sess) self).2 = [] ∧
    (Track.album w si self).1 =
        .error (.spError (w.tracks self.sp_track).error) ∧
    fieldReads (Track.album w si self).2 = [] ∧
    (Track.name w si self).1 =
        .error (.spError (w.tracks self.sp_track).error) ∧
    fieldReads (Track.name w si self).2 = [] ∧
    (Track.duration w si self).1 =
        .error (.spError (w.tracks self.sp_track).error) ∧
    fieldReads (Track.duration w si self).2 = [] ∧
    (Track.popularity w si self).1 =
        .error (.spError (w.tracks self.sp_track).error) ∧
    fieldReads (Track.popularity w si self).2 = [] ∧
    (Track.disc w si self).1 =
        .error (.spError (w.tracks self.sp_track).error) ∧
    fieldReads (Track.disc w si self).2 = [] ∧
    (Track.index w si self).1 =
        .error (.spError (w.tracks self.sp_track).error) ∧
    fieldReads (Track.index w si self).2 = [] ∧
    (Track.error w self).1 = (w.tracks self.sp_track).error ∧
    (Track.is_loaded w self).1 = pybool (w.tracks self.sp_track).is_loaded := by
  simp [Track.offline_status, Track.availability, Track.is_local,
    Track.is_autolinked, Track.playable, Track.is_placeholder,
    Track.is_starred, Track.album, Track.name, Track.duration,
    Track.popularity, Track.disc, Track.index, Track.error, Track.is_loaded,
    Error.maybe_raise, herr, fieldReads, isFieldRead]

/-- Claim C4, witness at a concrete failing track. -/
theorem error_gated_accessors_raise_witness :
    (wFailed.tracks tr0.sp_track).error ≠ SP_ERROR_OK ∧
    ((Track.name wFailed none tr0).1 = .error (.spError 3) ∧
     (Track.album wFailed none tr0).1 = .error (.spError 3) ∧
     (Track.duration wFailed none tr0).1 = .error (.spError 3) ∧
     (Track.is_loaded wFailed tr0).1 = true ∧
     (Track.error wFailed tr0).1 = 3) := by
  refine ⟨by decide, ?_⟩
  obtain ⟨h1, h2, h3, h4, h5, h6, h7, h8, h9, h10, h11, h12, h13, h14,
      h15, h16, h17, h18, h19, h20, h21, h22, h23, h24, h25, h26, h27, h28⟩ :=
    error_gated_accessors_raise wFailed ⟨7⟩ none tr0 1 (by decide)
  exact ⟨h17, h15, h19, by decide, by decide⟩

/-- Claim C5: for an unloaded track (is_loaded false) with an active
session and an OK error code, is_local, is_autolinked and is_starred each
return None (the distinguished absence value), never the boolean false. -/
theorem unloaded_flags_return_none (w : NativeWorld) (sess : Session)
    (self : Track)
    (herr : (w.tracks self.sp_track).error = SP_ERROR_OK)
    (hload : (Track.is_loaded w self).1 = false) :
    (Track.is_local w (some sess) self).1 = .ok none ∧
    (Track.is_autolinked w (some sess) self).1 = .ok none ∧
    (Track.is_starred w (some sess) self).1 = .ok none := by
  simp [Track.is_local, Track.is_autolinked, Track.is_starred, Track.error,
    Error.maybe_raise, herr, hload]

/-- Claim C5, witness at a concrete unloaded track. -/
theorem unloaded_flags_return_none_witness :
    ((wUnloaded.tracks tr0.sp_track).error = SP_ERROR_OK ∧
     (Track.is_loaded wUnloaded tr0).1 = false) ∧
    ((Track.is_local wUnloaded (some ⟨7⟩) tr0).1 = .ok none ∧
     (Track.is_autolinked wUnloaded (some ⟨7⟩) tr0).1 = .ok none ∧
     (Track.is_starred wUnloaded (some ⟨7⟩) tr0).1 = .ok none) :=
  ⟨⟨by decide, by decide⟩,
   unloaded_flags_return_none wUnloaded ⟨7⟩ tr0 (by decide) (by decide)⟩

/-- Claim C6: with an OK error code, duration, disc and index return None
exactly when the native integer read is zero and otherwise return that
integer; name returns None exactly when the decoded native string is empty
and otherwise returns the decoded string; album returns None exactly when
the native album pointer is null and otherwise returns an Album wrapper
over that pointer. -/
theorem empty_sentinel_conflation (w : NativeWorld) (si : Option Session)
    (self : Track)
    (herr : (w.tracks self.sp_track).error = SP_ERROR_OK) :
    ((Track.duration w si self).1 = .ok none ↔
        (w.tracks self.sp_track).duration = 0) ∧
    ((w.tracks self.sp_track).duration ≠ 0 →
        (Track.duration w si self).1 =
          .ok (some (w.tracks self.sp_track).duration)) ∧
    ((Track.disc w si self).1 = .ok none ↔
        (w.tracks self.sp_track).disc = 0) ∧
    ((w.tracks self.sp_track).disc ≠ 0 →
        (Track.disc w si self).1 = .ok (some (w.tracks self.sp_track).disc)) ∧
    ((Track.index w si self).1 = .ok none ↔
        (w.tracks self.sp_track).index = 0) ∧
    ((w.tracks self.sp_track).index ≠ 0 →
        (Track.index w si self).1 =
          .ok (some (w.tracks self.sp_track).index)) ∧
    ((Track.name w si self).1 = .ok none ↔
        to_unicode (w.tracks self.sp_track).name = "") ∧
    (to_unicode (w.tracks self.sp_track).name ≠ "" →
        (Track.name w si self).1 =
          .ok (some (to_unicode (w.tracks self.sp_track).name))) ∧
    ((Track.album w si self).1 = .ok none ↔
        (w.tracks self.sp_track).album = none) ∧
    (∀ p, (w.tracks self.sp_track).album = some p →
        (Track.album w si self).1 = .ok (some ⟨p⟩)) := by
  refine ⟨?_, ?_, ?_, ?_, ?_, ?_, ?_, ?_, ?_, ?_⟩ <;>
    simp [Track.duration, Track.disc, Track.index, Track.name, Track.album,
      Track.error, Error.maybe_raise, herr, pybool]
  · rcases h : (w.tracks self.sp_track).album with _ | p <;> simp [h]
  · intro p hp; simp [hp]

/-- Claim C6, witness at concrete loaded and unloaded tracks. -/
theorem empty_sentinel_conflation_witness :
    (wLoaded.tracks tr0.sp_track).error = SP_ERROR_OK ∧
    ((Track.duration wLoaded none tr0).1 = .ok none ↔
        (wLoaded.tracks tr0.sp_track).duration = 0) ∧
    ((wLoaded.tracks tr0.sp_track).duration ≠ 0 →
        (Track.duration wLoaded none tr0).1 =
          .ok (some (wLoaded.tracks tr0.sp_track).duration)) := by
  have h := empty_sentinel_conflation wLoaded none tr0 (by decide)
  exact ⟨by decide, h.1, h.2.1⟩

/-- Claim C7 counterexample: a loaded, error-free track whose native
popularity field reads zero.  The claim says popularity returns absence on
the zero sentinel; the code returns the integer 0, not None. -/
theorem popularity_zero_not_absent :
    (wLoaded.tracks tr0.sp_track).error = SP_ERROR_OK ∧
    (Track.is_loaded wLoaded tr0).1 = true ∧
    (wLoaded.tracks tr0.sp_track).popularity = 0 ∧
    (Track.popularity wLoaded none tr0).1 = .ok (some 0) ∧
    (Track.popularity wLoaded none tr0).1 ≠ .ok none := by
  refine ⟨by decide, by decide, by decide, by decide, by decide⟩

/-- Claim C7 amended: with an OK error code, popularity returns None
exactly when is_loaded is false; when the track is loaded it returns the
native value unchanged — including zero, which is not converted to
absence. -/
theorem popularity_absent_iff_unloaded (w : NativeWorld) (si : Option Session)
    (self : Track)
    (herr : (w.tracks self.sp_track).error = SP_ERROR_OK) :
    ((Track.popularity w si self).1 = .ok none ↔
        (Track.is_loaded w self).1 = false) ∧
    ((Track.is_loaded w self).1 = true →
        (Track.popularity w si self).1 =
          .ok (some (w.tracks self.sp_track).popularity)) := by
  constructor
  · by_cases hl : (Track.is_loaded w self).1 = false <;>
      simp [Track.popularity, Track.error, Error.maybe_raise, herr, hl]
  · intro hl
    simp [Track.popularity, Track.error, Error.maybe_raise, herr, hl]

/-- Claim C7 amended, witness at concrete loaded and unloaded tracks. -/
theorem popularity_absent_iff_unloaded_witness :
    ((wUnloaded.tracks tr0.sp_track).error = SP_ERROR_OK ∧
     ((Track.popularity wUnloaded none tr0).1 = .ok none ↔
        (Track.is_loaded wUnloaded tr0).1 = false)) ∧
    ((wLoaded.tracks tr0.sp_track).error = SP_ERROR_OK ∧
     ((Track.is_loaded wLoaded tr0).1 = true →
        (Track.popularity wLoaded none tr0).1 =
          .ok (some (wLoaded.tracks tr0.sp_track).popularity))) :=
  ⟨⟨by decide, (popularity_absent_iff_unloaded wUnloaded none tr0 (by decide)).1⟩,
   ⟨by decide, (popularity_absent_iff_unloaded wLoaded none tr0 (by decide)).2⟩⟩

/-- Claim C8: LocalTrack construction converts each absent string parameter
to the native null and each provided string to its encoded bytes, maps an
absent length to -1 (which is not zero) and a provided length to itself,
performs exactly the one native creation call, never calls add_ref on any
pointer (the handle is adopted, add_ref false), and stores the handle the
creation call returned. -/
theorem localtrack_construction (artist title album : Option String)
    (length : Option Int) (s : String) (n : Int)
    (create : CCharBuf → CCharBuf → CCharBuf → Int → SpTrackPtr) (oid : Nat) :
    LocalTrack.convert none = CCharBuf.null ∧
    LocalTrack.convert (some s) = CCharBuf.buf (to_bytes s) ∧
    (LocalTrack.init artist title album none create oid).2 =
      [NativeCall.sp_localtrack_create (LocalTrack.convert artist)
        (LocalTrack.convert title) (LocalTrack.convert album) (-1)] ∧
    (-1 : Int) ≠ 0 ∧
    (LocalTrack.init artist title album (some n) create oid).2 =
      [NativeCall.sp_localtrack_create (LocalTrack.convert artist)
        (LocalTrack.convert title) (LocalTrack.convert album) n] ∧
    (∀ p, addRefCount p
        (LocalTrack.init artist title album length create oid).2 = 0) ∧
    (LocalTrack.init artist title album none create oid).1.sp_track =
      create (LocalTrack.convert artist) (LocalTrack.convert title)
        (LocalTrack.convert album) (-1) ∧
    (LocalTrack.init artist title album (some n) create oid).1.sp_track =
      create (LocalTrack.convert artist) (LocalTrack.convert title)
        (LocalTrack.convert album) n := by
  refine ⟨rfl, rfl, rfl, by decide, rfl, ?_, rfl, rfl⟩
  intro p
  cases length <;>
    simp [LocalTrack.init, Track.init, addRefCount, List.countP_cons,
      List.countP_nil]

/-- Claim C9: with an active session and an OK error code, playable returns
a new Track wrapper around the native playable target resolved through the
session, the construction takes a fresh reference (exactly one add_ref on
the target, no release), and the wrapper has an object identity distinct
from self. -/
theorem playable_fresh_wrapper (w : NativeWorld) (sess : Session)
    (self : Track) (next_oid : Nat)
    (herr : (w.tracks self.sp_track).error = SP_ERROR_OK)
    (hfresh : self.oid < next_oid) :
    (Track.playable w (some sess) self next_oid).1 =
      .ok ⟨next_oid, (w.tracks self.sp_track).playable⟩ ∧
    (∀ tr, (Track.playable w (some sess) self next_oid).1 = .ok tr →
      tr.oid ≠ self.oid) ∧
    addRefCount (w.tracks self.sp_track).playable
      (Track.playable w (some sess) self next_oid).2 = 1 ∧
    releaseCount (w.tracks self.sp_track).playable
      (Track.playable w (some sess) self next_oid).2 = 0 ∧
    (Track.playable w (some sess) self next_oid).2 =
      [NativeCall.sp_track_error self.sp_track,
       NativeCall.sp_track_get_playable sess.sp_session self.sp_track,
       NativeCall.sp_track_add_ref (w.tracks self.sp_track).playable] := by
  have hres : (Track.playable w (some sess) self next_oid).1 =
      .ok ⟨next_oid, (w.tracks self.sp_track).playable⟩ := by
    simp [Track.playable, Track.init, Track.error, Error.maybe_raise, herr]
  refine ⟨hres, ?_, ?_, ?_, ?_⟩
  · intro tr htr
    rw [hres] at htr
    injection htr with h
    subst h
    simp only []
    omega
  · simp [Track.playable, Track.init, Track.error, Error.maybe_raise, herr,
      addRefCount, List.countP_cons, List.countP_nil]
  · simp [Track.playable, Track.init, Track.error, Error.maybe_raise, herr,
      releaseCount, List.countP_cons, List.countP_nil]
  · simp [Track.playable, Track.init, Track.error, Error.maybe_raise, herr]

/-- Claim C9, witness at a concrete loaded track. -/
theorem playable_fresh_wrapper_witness :
    ((wLoaded.tracks tr0.sp_track).error = SP_ERROR_OK ∧ tr0.oid < 1) ∧
    ((Track.playable wLoaded (some ⟨7⟩) tr0 1).1 = .ok ⟨1, 9⟩ ∧
     addRefCount 9 (Track.playable wLoaded (some ⟨7⟩) tr0 1).2 = 1) := by
  have h := playable_fresh_wrapper wLoaded ⟨7⟩ tr0 1 (by decide) (by decide)
  exact ⟨⟨by decide, by decide⟩, ⟨h.1, h.2.2.1⟩⟩

/-- Claim C10: is_placeholder is gated only on the error check.  It never
consults the session singleton (its result is the same for every session
state and is never the liveness RuntimeError), it raises the error code
when that is non-OK, and otherwise it returns a bool read from the native
layer regardless of load state, never None. -/
theorem is_placeholder_only_error_gated (w : NativeWorld) (si : Option Session)
    (self : Track) :
    ((w.tracks self.sp_track).error = SP_ERROR_OK →
      Track.is_placeholder w si self =
        (.ok (pybool (w.tracks self.sp_track).is_placeholder),
         [NativeCall.sp_track_error self.sp_track,
          NativeCall.sp_track_is_placeholder self.sp_track])) ∧
    ((w.tracks self.sp_track).error ≠ SP_ERROR_OK →
      (Track.is_placeholder w si self).1 =
        .error (.spError (w.tracks self.sp_track).error)) ∧
    (∀ msg, (Track.is_placeholder w si self).1 ≠ .error (.runtimeError msg)) ∧
    (∀ si2, Track.is_placeholder w si self =
      Track.is_placeholder w si2 self) := by
  by_cases herr : (w.tracks self.sp_track).error = SP_ERROR_OK <;>
    simp [Track.is_placeholder, Track.error, Error.maybe_raise, herr]

/-- Claim C10, witness: an unloaded error-free track with no session still
yields a bool (false here), with no liveness fault. -/
theorem is_placeholder_witness :
    (wUnloaded.tracks tr0.sp_track).error = SP_ERROR_OK ∧
    Track.is_placeholder wUnloaded none tr0 =
      (.ok false, [NativeCall.sp_track_error 0,
                   NativeCall.sp_track_is_placeholder 0]) ∧
    (Track.is_placeholder wUnloaded none tr0).1 ≠
      .error (.runtimeError "Session must be initialized") :=
  ⟨by decide,
   (is_placeholder_only_error_gated wUnloaded none tr0).1 (by decide),
   (is_placeholder_only_error_gated wUnloaded none tr0).2.2.1
     "Session must be initialized"⟩
